import Mathlib

/-!
# Verification of the cricket-backend-api match reconciliation and roster rules

Shallow embedding of `api/models.py`, `api/serializers.py` and the write paths of
`api/views.py`. The persistent store is an explicit `DB` state. Integer columns
(`IntegerField`) are modelled as `Int`; queryset filters over players are list
filters; querysets of all users / all teams are the explicit `userIds` /
`teamIds` lists. Fallible operations (`full_clean` raising `ValidationError`,
`Match.DoesNotExist`) return `Option`.

The match write path is embedded at two levels of precision.

The instance-accurate flows (`applyStatsInst`, `revertStatsInst`,
`createMatchApi`, `updateMatchApi`) follow Django's runtime semantics through
the deployed serializer paths: every foreign-key access yields its own instance
(a snapshot of the row at fetch time, held as a local `TeamRec`), `save()`
writes all of the instance's fields back to the row through the full
`Team.save` / `PlayerProfile.save` (including `full_clean` and the
`post_save` signal), and a raised `ValidationError` rolls the whole
transaction back (`none`). Consequently a stale instance save can clobber an
earlier write to the same row, exactly as in the source.

The coarse row-level operations (`applyStats`, `revertStats`, `matchSave`,
`createMatch`, `updateMatch`) record the per-statement counter writes of
`Match.save` directly on the rows, ignoring which instance carries each write,
whether the final stale saves overwrite it, and the in-loop validation. They
are used only for properties that hold on every flow regardless of those
effects: which fields of a row a statement can touch (the player frame
property), whether the match row itself is persisted, and the counters of rows
whose last write is not stale.
-/

namespace CricketApi

/-- A row of the `Team` table (`models.py`, class `Team`): counters plus the
optional captain foreign key. `name`, `country`, `created_at` carry no claim
content and are omitted. -/
structure TeamRec where
  captain : Option Nat
  matches_played : Int
  wins : Int
  lost : Int
  draw : Int
  points : Int
deriving DecidableEq

/-- A row of the `PlayerProfile` table (`models.py`, class `PlayerProfile`).
`age` and `type` carry no claim content and are omitted. -/
structure PlayerRec where
  pid : Nat
  user : Nat
  team : Nat
  matches_played : Int
  total_runs : Int
  wickets : Int
  is_playing : Bool
deriving DecidableEq

/-- A row of the `Match` table: the two team foreign keys and the nullable
winner (`models.py`, class `Match`). `date` and `venue` carry no claim content
and are omitted. -/
structure MatchRow where
  team1 : Nat
  team2 : Nat
  winner : Option Nat
deriving DecidableEq

/-- The transactional store: users (id list plus `category` column), teams
(id list of live rows plus row contents), player profiles, and matches with a
fresh-id counter for `super().save()` on a new match. -/
structure DB where
  userIds : List Nat
  userCategory : Nat → String
  teamIds : List Nat
  teams : Nat → TeamRec
  players : List PlayerRec
  matchRows : Nat → Option MatchRow
  nextMatchId : Nat

/-- Pointwise update of a row map. -/
def updFun {α : Type} (f : Nat → α) (i : Nat) (v : α) : Nat → α :=
  fun j => if j = i then v else f j

@[simp] theorem updFun_same {α : Type} (f : Nat → α) (i : Nat) (v : α) :
    updFun f i v i = v := by simp [updFun]

@[simp] theorem updFun_apply {α : Type} (f : Nat → α) (i : Nat) (v : α) (j : Nat) :
    updFun f i v j = if j = i then v else f j := rfl

/-- `Team.update_points` (`models.py` lines 38-41): recompute
`points = wins * 2 + draw`; the trailing `self.save()` is the identity here. -/
def TeamRec.update_points (t : TeamRec) : TeamRec :=
  { t with points := t.wins * 2 + t.draw }

/-- Apply a mutation to one team row. -/
def updTeam (db : DB) (i : Nat) (g : TeamRec → TeamRec) : DB :=
  { db with teams := updFun db.teams i (g (db.teams i)) }

@[simp] theorem updTeam_teams (db : DB) (i : Nat) (g : TeamRec → TeamRec) (j : Nat) :
    (updTeam db i g).teams j = if j = i then g (db.teams i) else db.teams j := by
  simp [updTeam]

@[simp] theorem updTeam_players (db : DB) (i : Nat) (g : TeamRec → TeamRec) :
    (updTeam db i g).players = db.players := rfl

@[simp] theorem updTeam_matches (db : DB) (i : Nat) (g : TeamRec → TeamRec) :
    (updTeam db i g).matchRows = db.matchRows := rfl

@[simp] theorem updTeam_userCategory (db : DB) (i : Nat) (g : TeamRec → TeamRec) :
    (updTeam db i g).userCategory = db.userCategory := rfl

/-- Row-level summary of one `for player in team.players.filter(is_playing=True)`
loop of `Match.save`: write `d player.matches_played` to every active player
row of team `t` (loop bodies are `+= 1` on apply, `max(0, - 1)` on revert).
The per-save `full_clean` of the source loop, which can raise and roll the
transaction back, is modelled by `savePlayerList` in the instance-accurate
flows; this summary is used only for the frame property, which also holds on
the rolled-back (unchanged) state. -/
def bumpActivePlayers (db : DB) (t : Nat) (d : Int → Int) : DB :=
  let step : PlayerRec → PlayerRec := fun p =>
    if p.team = t ∧ p.is_playing = true
    then { p with matches_played := d p.matches_played } else p
  { db with players := db.players.map step }

@[simp] theorem bumpActivePlayers_teams (db : DB) (t : Nat) (d : Int → Int) :
    (bumpActivePlayers db t d).teams = db.teams := rfl

@[simp] theorem bumpActivePlayers_matches (db : DB) (t : Nat) (d : Int → Int) :
    (bumpActivePlayers db t d).matchRows = db.matchRows := rfl

/-- Row-level summary of the "Apply new stats" block of `Match.save`
(`models.py` lines 156-189): increment `matches_played` of `team1`, `team2`
and their active players, then the winner/draw branch with `update_points` on
the affected teams. Each computed write is taken to persist; the deployed
flows, in which the trailing `self.team1.save()` / `self.team2.save()`
(lines 188-189) rewrite rows from stale instances, are modelled by
`applyStatsInst`. This summary is retained only for claims whose conclusions
survive the stale saves (the match row, the player frame, and counters whose
last write comes from the instance that carries them). -/
def applyStats (db : DB) (t1 t2 : Nat) (w : Option Nat) : DB :=
  let dbA := updTeam db t1 (fun t => { t with matches_played := t.matches_played + 1 })
  let dbB := updTeam dbA t2 (fun t => { t with matches_played := t.matches_played + 1 })
  let dbC := bumpActivePlayers dbB t1 (fun m => m + 1)
  let dbD := bumpActivePlayers dbC t2 (fun m => m + 1)
  match w with
  | some wid =>
      let dbE := updTeam dbD wid (fun t => { t with wins := t.wins + 1 })
      let loser := if wid = t1 then t2 else t1
      let dbF := updTeam dbE loser (fun t => { t with lost := t.lost + 1 })
      let dbG := updTeam dbF wid TeamRec.update_points
      updTeam dbG loser TeamRec.update_points
  | none =>
      let dbE := updTeam dbD t1 (fun t => { t with draw := t.draw + 1 })
      let dbF := updTeam dbE t2 (fun t => { t with draw := t.draw + 1 })
      let dbG := updTeam dbF t1 TeamRec.update_points
      updTeam dbG t2 TeamRec.update_points

/-- Row-level summary of the "Revert previous stats" block of `Match.save`
(`models.py` lines 128-154): saturating decrement of `matches_played` for the
old teams and their active players, then the old winner/draw branch with
`update_points`. Each computed decrement is taken to persist; in the source's
winner branch only `old_winner` and the loser instances are saved, so the
winning team's `matches_played` decrement is in fact lost — that behaviour is
modelled by `revertStatsInst`. This summary is used only for the player frame
property, which holds either way. -/
def revertStats (db : DB) (old : MatchRow) : DB :=
  let dbA := updTeam db old.team1
    (fun t => { t with matches_played := max 0 (t.matches_played - 1) })
  let dbB := updTeam dbA old.team2
    (fun t => { t with matches_played := max 0 (t.matches_played - 1) })
  let dbC := bumpActivePlayers dbB old.team1 (fun m => max 0 (m - 1))
  let dbD := bumpActivePlayers dbC old.team2 (fun m => max 0 (m - 1))
  match old.winner with
  | some wid =>
      let dbE := updTeam dbD wid (fun t => { t with wins := max 0 (t.wins - 1) })
      let loser := if wid = old.team1 then old.team2 else old.team1
      let dbF := updTeam dbE loser (fun t => { t with lost := max 0 (t.lost - 1) })
      let dbG := updTeam dbF wid TeamRec.update_points
      updTeam dbG loser TeamRec.update_points
  | none =>
      let dbE := updTeam dbD old.team1 (fun t => { t with draw := max 0 (t.draw - 1) })
      let dbF := updTeam dbE old.team2 (fun t => { t with draw := max 0 (t.draw - 1) })
      let dbG := updTeam dbF old.team1 TeamRec.update_points
      updTeam dbG old.team2 TeamRec.update_points

/-- Row-level summary of `Match.save` (`models.py` lines 102-189). `pk = none`
is a brand-new match: `super().save()` inserts the row under a fresh id and
only the apply block runs. `pk = some mid` is an update: the previous row is
fetched (`none` models `Match.DoesNotExist`), the new field values are
written, the old stats are reverted, then the new stats are applied. Returns
the new state and match id. The inner saves' `ValidationError`/rollback paths
and the instance staleness are modelled by `createMatchApi` /
`updateMatchApi`; this summary serves the frame and persistence claims, which
hold on the rolled-back state as well. -/
def matchSave (db : DB) (pk : Option Nat) (row : MatchRow) : Option (DB × Nat) :=
  match pk with
  | none =>
      let mid := db.nextMatchId
      let db1 : DB := { db with matchRows := updFun db.matchRows mid (some row),
                                nextMatchId := db.nextMatchId + 1 }
      some (applyStats db1 row.team1 row.team2 row.winner, mid)
  | some mid =>
      match db.matchRows mid with
      | none => none
      | some old =>
          let db1 : DB := { db with matchRows := updFun db.matchRows mid (some row) }
          let db2 := revertStats db1 old
          some (applyStats db2 row.team1 row.team2 row.winner, mid)

/-- `MatchSerializer` field validation: `team1`, `team2`, `winner` are
`PrimaryKeyRelatedField`s over all teams (`serializers.py` lines 79-81), so the
only requirement is existence; `validate` itself accepts everything
(`serializers.py` lines 87-92, the same-team check is commented out). -/
def matchRowValid (db : DB) (row : MatchRow) : Bool :=
  db.teamIds.contains row.team1 && db.teamIds.contains row.team2 &&
    (match row.winner with
     | none => true
     | some w => db.teamIds.contains w)

/-- `PUT /matches/<id>/` (`views.py` MatchView.put): serializer validation then
`Match.save` on the existing instance. -/
def updateMatch (db : DB) (mid : Nat) (row : MatchRow) : Option (DB × Nat) :=
  if matchRowValid db row then matchSave db (some mid) row else none

/-- `Team.clean` (`models.py` lines 43-49): a captain, when set, must have
category CAPTAIN and must not already captain another team (current team
excluded). -/
def teamClean (db : DB) (tid : Nat) (rec : TeamRec) : Bool :=
  match rec.captain with
  | none => true
  | some c =>
      (db.userCategory c == "CAPTAIN") &&
        !(db.teamIds.any (fun t => t != tid && (db.teams t).captain == some c))

/-- One iteration of the `ensure_captain_has_team` loop (`models.py` lines
204-207): if user `u` has category CAPTAIN and captains no team, set the
category to PLAYER. -/
def demoteStep (acc : DB) (u : Nat) : DB :=
  if acc.userCategory u == "CAPTAIN" &&
      !(acc.teamIds.any (fun t => (acc.teams t).captain == some u))
  then { acc with userCategory := updFun acc.userCategory u "PLAYER" }
  else acc

/-- The `post_save` signal `ensure_captain_has_team` (`models.py` lines
201-207): every user with category CAPTAIN who captains no team is demoted to
PLAYER. -/
def demoteTeamlessCaptains (db : DB) : DB :=
  db.userIds.foldl demoteStep db

/-- `Team.save` (`models.py` lines 51-62): `full_clean`, snapshot the old
captain, `super().save()` (which fires the `post_save` signal
`ensure_captain_has_team`), then demote the old captain to PLAYER if the
captain changed. `none` models a `ValidationError` from `full_clean`. -/
def teamSave (db : DB) (tid : Nat) (rec : TeamRec) : Option DB :=
  if teamClean db tid rec then
    let old_captain : Option Nat :=
      if db.teamIds.contains tid then (db.teams tid).captain else none
    let db1 : DB :=
      { db with teams := updFun db.teams tid rec,
                teamIds := if db.teamIds.contains tid then db.teamIds
                           else tid :: db.teamIds }
    let db2 := demoteTeamlessCaptains db1
    match old_captain with
    | some c =>
        if rec.captain ≠ some c
        then some { db2 with userCategory := updFun db2.userCategory c "PLAYER" }
        else some db2
    | none => some db2
  else none

/-- `DELETE /teams/<id>/` (`views.py` TeamView.delete → `team.delete()`):
cascade-delete the team's player profiles, cascade-delete matches referencing
it as team1/team2, null out `winner` references (`on_delete=SET_NULL`), and
fire the `post_delete` signal `revert_captain_on_team_delete` (`models.py`
lines 195-199) demoting the captain, if any, to PLAYER. -/
def teamDelete (db : DB) (tid : Nat) : DB :=
  let cap := (db.teams tid).captain
  let db1 : DB :=
    { db with teamIds := db.teamIds.filter (fun t => t != tid),
              players := db.players.filter (fun p => p.team != tid),
              matchRows := fun i =>
                match db.matchRows i with
                | none => none
                | some r =>
                    if r.team1 = tid ∨ r.team2 = tid then none
                    else some { r with winner :=
                                  if r.winner = some tid then none else r.winner } }
  match cap with
  | some c => { db1 with userCategory := updFun db1.userCategory c "PLAYER" }
  | none => db1

/-- `PlayerProfile.clean` (`models.py` lines 82-86): the user must have
category PLAYER, and if the profile is playing, the team must currently have
fewer than 11 playing players (the profile being written is NOT excluded from
the count). -/
def playerClean (db : DB) (p : PlayerRec) : Bool :=
  (db.userCategory p.user == "PLAYER") &&
    !(p.is_playing &&
      11 ≤ (db.players.filter (fun q => q.team == p.team && q.is_playing)).length)

/-- `PlayerProfile.save` (`models.py` lines 88-90): `full_clean` then persist —
update the row with the same `pid` if it exists, otherwise insert. `none`
models a `ValidationError`. -/
def playerSave (db : DB) (p : PlayerRec) : Option DB :=
  if playerClean db p then
    some { db with players :=
            if db.players.any (fun q => q.pid == p.pid)
            then db.players.map (fun q => if q.pid == p.pid then p else q)
            else db.players ++ [p] }
  else none

/-- The playing roster of team `t` as currently stored:
`team.players.filter(is_playing=True)` evaluated against the live rows. -/
def activeOf (db : DB) (t : Nat) : List PlayerRec :=
  db.players.filter (fun p => p.team == t && p.is_playing)

/-- One of the `for player in ...: player.save()` loops of `Match.save`, run
against already-mutated instance snapshots `ps`: each save goes through the
full `PlayerProfile.save` (`full_clean` included), and the first
`ValidationError` aborts the loop — the surrounding `transaction.atomic` then
rolls the whole match save back (`none`). -/
def savePlayerList (db : DB) (ps : List PlayerRec) : Option DB :=
  ps.foldl (fun acc p => acc.bind (fun s => playerSave s p)) (some db)

/-- Instance-accurate "Apply new stats" block of `Match.save` (`models.py`
lines 156-189), as reached through the deployed serializer flows. `t1rec`,
`t2rec` are the `self.team1` / `self.team2` instance snapshots and `w` the
`self.winner` instance — a DISTINCT instance even when it refers to the same
row as `self.team1` (`PrimaryKeyRelatedField` fetches each field separately).
Lines 158-159 mutate the team instances locally; the player loops fetch fresh
rows and save them one by one; the winner/draw branch mutates and saves the
winner instance and the loser instance (chosen by primary-key comparison at
line 174, hence aliased with `t1rec`/`t2rec`); lines 188-189 finally save
`self.team1` and `self.team2` again — rewriting their rows from the local
snapshots, stale `wins`/`points` included. Every team save is the full
`Team.save` (`teamSave`). -/
def applyStatsInst (db : DB) (t1id t2id : Nat) (t1rec0 t2rec0 : TeamRec)
    (w : Option (Nat × TeamRec)) : Option DB :=
  let t1rec := { t1rec0 with matches_played := t1rec0.matches_played + 1 }
  let t2rec := { t2rec0 with matches_played := t2rec0.matches_played + 1 }
  (savePlayerList db ((activeOf db t1id).map
      (fun p => { p with matches_played := p.matches_played + 1 }))).bind (fun db1 =>
  (savePlayerList db1 ((activeOf db1 t2id).map
      (fun p => { p with matches_played := p.matches_played + 1 }))).bind (fun db2 =>
  match w with
  | some (wid, w0) =>
      let wr := ({ w0 with wins := w0.wins + 1 }).update_points
      if wid = t1id then
        let t2rec := ({ t2rec with lost := t2rec.lost + 1 }).update_points
        (teamSave db2 wid wr).bind (fun d =>
        (teamSave d t2id t2rec).bind (fun d =>
        (teamSave d wid wr).bind (fun d =>
        (teamSave d t2id t2rec).bind (fun d =>
        (teamSave d t1id t1rec).bind (fun d =>
        teamSave d t2id t2rec)))))
      else
        let t1rec := ({ t1rec with lost := t1rec.lost + 1 }).update_points
        (teamSave db2 wid wr).bind (fun d =>
        (teamSave d t1id t1rec).bind (fun d =>
        (teamSave d wid wr).bind (fun d =>
        (teamSave d t1id t1rec).bind (fun d =>
        (teamSave d t1id t1rec).bind (fun d =>
        teamSave d t2id t2rec)))))
  | none =>
      let t1rec := ({ t1rec with draw := t1rec.draw + 1 }).update_points
      let t2rec := ({ t2rec with draw := t2rec.draw + 1 }).update_points
      (teamSave db2 t1id t1rec).bind (fun d =>
      (teamSave d t2id t2rec).bind (fun d =>
      (teamSave d t1id t1rec).bind (fun d =>
      (teamSave d t2id t2rec).bind (fun d =>
      (teamSave d t1id t1rec).bind (fun d =>
      teamSave d t2id t2rec)))))))

/-- Instance-accurate "Revert previous stats" block of `Match.save`
(`models.py` lines 128-154). `old_match` is fetched with `select_related`, so
`old_match.team1`, `old_match.team2` and `old_match.winner` are three distinct
instance snapshots even when they refer to the same row. Lines 130-131
decrement `matches_played` only on the team1/team2 instances; in the winner
branch (lines 139-146) only `old_winner` and the loser instance are ever
saved, so a decrement held by an unsaved instance is lost and a stale instance
save can overwrite an earlier one. The old playing rosters are snapshotted up
front (lines 121-122) and saved through `PlayerProfile.save` (`full_clean`
included). -/
def revertStatsInst (db : DB) (old : MatchRow) : Option DB :=
  let oldT1 := { (db.teams old.team1) with
    matches_played := max 0 ((db.teams old.team1).matches_played - 1) }
  let oldT2 := { (db.teams old.team2) with
    matches_played := max 0 ((db.teams old.team2).matches_played - 1) }
  let oldW := old.winner.map (fun i => (i, db.teams i))
  let op := ((activeOf db old.team1) ++ (activeOf db old.team2)).map
      (fun p => { p with matches_played := max 0 (p.matches_played - 1) })
  (savePlayerList db op).bind (fun db1 =>
  match oldW with
  | some (owid, ow0) =>
      let ow := ({ ow0 with wins := max 0 (ow0.wins - 1) }).update_points
      if owid = old.team1 then
        let l := ({ oldT2 with lost := max 0 (oldT2.lost - 1) }).update_points
        (teamSave db1 owid ow).bind (fun d =>
        (teamSave d old.team2 l).bind (fun d =>
        (teamSave d owid ow).bind (fun d =>
        teamSave d old.team2 l)))
      else
        let l := ({ oldT1 with lost := max 0 (oldT1.lost - 1) }).update_points
        (teamSave db1 owid ow).bind (fun d =>
        (teamSave d old.team1 l).bind (fun d =>
        (teamSave d owid ow).bind (fun d =>
        teamSave d old.team1 l)))
  | none =>
      let a := ({ oldT1 with draw := max 0 (oldT1.draw - 1) }).update_points
      let b := ({ oldT2 with draw := max 0 (oldT2.draw - 1) }).update_points
      (teamSave db1 old.team1 a).bind (fun d =>
      (teamSave d old.team2 b).bind (fun d =>
      (teamSave d old.team1 a).bind (fun d =>
      teamSave d old.team2 b))))

/-- The deployed create flow, `POST /matches/` (`views.py` MatchView.post →
`MatchSerializer` → `Match.save` with no pk): field validation fetches
`team1`, `team2` and `winner` as three separate instances (entry snapshots),
`super().save()` inserts the match row under a fresh id, then the apply block
runs on those instances. -/
def createMatchApi (db : DB) (row : MatchRow) : Option (DB × Nat) :=
  if matchRowValid db row then
    let t1Entry := db.teams row.team1
    let t2Entry := db.teams row.team2
    let wEntry := row.winner.map (fun i => (i, db.teams i))
    let mid := db.nextMatchId
    let db0 : DB := { db with matchRows := updFun db.matchRows mid (some row),
                              nextMatchId := db.nextMatchId + 1 }
    (applyStatsInst db0 row.team1 row.team2 t1Entry t2Entry wEntry).map
      (fun d => (d, mid))
  else none

/-- The deployed edit flow, `PUT /matches/<id>/` with a partial body that sets
`winner` (`views.py` MatchView.put → `MatchSerializer(partial=True)` →
`Match.save` on the fetched match): the winner instance is fetched during
validation (an entry snapshot), the revert block runs against fresh
`select_related` snapshots, and `self.team1` / `self.team2` are first touched
at line 158 — lazily loaded only then, from the post-revert rows. -/
def updateMatchApi (db : DB) (mid : Nat) (w : Option Nat) : Option DB :=
  match db.matchRows mid with
  | none => none
  | some old =>
      if (match w with
          | none => true
          | some x => db.teamIds.contains x) then
        let wEntry := w.map (fun i => (i, db.teams i))
        let newRow : MatchRow := ⟨old.team1, old.team2, w⟩
        let db0 : DB := { db with matchRows := updFun db.matchRows mid (some newRow) }
        (revertStatsInst db0 old).bind (fun db2 =>
        applyStatsInst db2 old.team1 old.team2
          (db2.teams old.team1) (db2.teams old.team2) wEntry)
      else none

/-- Concrete store with two fresh teams (ids 0, 1) and one active player
(pid 0) on team 0, mirroring the spec's §8 scenario. -/
def dbTwoTeams : DB :=
  { userIds := [0],
    userCategory := fun _ => "PLAYER",
    teamIds := [0, 1],
    teams := fun _ => ⟨none, 0, 0, 0, 0, 0⟩,
    players := [⟨0, 0, 0, 0, 0, 0, true⟩],
    matchRows := fun _ => none,
    nextMatchId := 0 }

/-- The fields of a player row other than `matches_played`. -/
def playerFrame (p : PlayerRec) : Nat × Nat × Nat × Int × Int × Bool :=
  (p.pid, p.user, p.team, p.total_runs, p.wickets, p.is_playing)

/-- A bump-loop step leaves every player field other than `matches_played`
alone. -/
@[simp] theorem playerFrame_bump (p : PlayerRec) (t : Nat) (d : Int → Int) :
    playerFrame (if p.team = t ∧ p.is_playing = true
                 then { p with matches_played := d p.matches_played } else p) =
    playerFrame p := by
  by_cases h : p.team = t ∧ p.is_playing = true <;> simp [h, playerFrame]

/-- The apply block touches no player field other than `matches_played`. -/
theorem applyStats_playerFrame (db : DB) (t1 t2 : Nat) (w : Option Nat) :
    (applyStats db t1 t2 w).players.map playerFrame = db.players.map playerFrame := by
  cases w <;>
    simp [applyStats, bumpActivePlayers, updTeam] <;>
    intro a _ <;>
    by_cases h1 : a.team = t1 <;> by_cases h2 : a.team = t2 <;>
      by_cases hp : a.is_playing = true <;>
      simp_all [playerFrame]

/-- The revert block touches no player field other than `matches_played`. -/
theorem revertStats_playerFrame (db : DB) (old : MatchRow) :
    (revertStats db old).players.map playerFrame = db.players.map playerFrame := by
  cases h : old.winner <;>
    simp [revertStats, h, bumpActivePlayers, updTeam] <;>
    intro a _ <;>
    by_cases h1 : a.team = old.team1 <;> by_cases h2 : a.team = old.team2 <;>
      by_cases hp : a.is_playing = true <;>
      simp_all [playerFrame]

/-- Claim C9: saving a match (create or update) never changes any player's
pid, user, team, total_runs, wickets or is_playing; only matches_played may
move. -/
theorem c9_match_save_player_frame (db : DB) (pk : Option Nat) (row : MatchRow) :
    (matchSave db pk row).map (fun r => r.1.players.map playerFrame) =
    (matchSave db pk row).map (fun _ => db.players.map playerFrame) := by
  cases pk with
  | none =>
      simp [matchSave, applyStats_playerFrame]
  | some mid =>
      cases h : db.matchRows mid with
      | none => simp [matchSave, h]
      | some old =>
          simp [matchSave, h, applyStats_playerFrame, revertStats_playerFrame]

/-- Concrete store with a single fresh team (id 0) and no users or players. -/
def dbOneTeam : DB :=
  { userIds := [],
    userCategory := fun _ => "PLAYER",
    teamIds := [0],
    teams := fun _ => ⟨none, 0, 0, 0, 0, 0⟩,
    players := [],
    matchRows := fun _ => none,
    nextMatchId := 0 }

/-- Claim C3 fails on the code: `Team.save` persists exactly the record it is
given and never recomputes `points` (`update_points` is only invoked from
`Match.save`), so saving a team with wins = 2, draw = 1, points = 0 — the
repository's own `test_team_points_calculation` scenario — leaves points at 0
rather than 2*wins + draw = 5. -/
theorem c3_team_save_keeps_stale_points :
    (teamSave dbOneTeam 0 ⟨none, 0, 2, 0, 1, 0⟩).map
      (fun d => ((d.teams 0).points, (d.teams 0).wins * 2 + (d.teams 0).draw)) =
    some (0, 5) := by decide

/-- Concrete store whose team 0 has exactly 11 playing players (pids 0-10). -/
def dbFullRoster : DB :=
  { userIds := [],
    userCategory := fun _ => "PLAYER",
    teamIds := [0],
    teams := fun _ => ⟨none, 0, 0, 0, 0, 0⟩,
    players := (List.range 11).map (fun i => ⟨i, i, 0, 0, 0, 0, true⟩),
    matchRows := fun _ => none,
    nextMatchId := 0 }

/-- Counterexample to C5: on a team with exactly 11 playing players, updating
one of the existing 11 playing profiles (pid 0, still playing, only its age-like
data changed) is itself rejected by `PlayerProfile.clean` — the count does not
exclude the profile being written, so the claimed successful update fails. -/
theorem c5_counterexample_update_of_playing_profile_rejected :
    dbFullRoster.players.any (fun q => q.pid == 0) = true ∧
    (playerSave dbFullRoster ⟨0, 0, 0, 5, 0, 0, true⟩).isSome = false := by decide

/-- Claim C5 amended: any write of a profile with is_playing = true whose team
currently has 11 or more playing rows is rejected — this rejects the 12th
active profile as the claim states, but it equally rejects re-saving one of the
existing 11 playing profiles, because `PlayerProfile.clean` counts all playing
rows of the team without excluding the profile being written. -/
theorem c5_amended_full_roster_rejects_any_playing_write (db : DB) (p : PlayerRec)
    (hp : p.is_playing = true)
    (hcount : 11 ≤ (db.players.filter (fun q => q.team == p.team && q.is_playing)).length) :
    playerSave db p = none := by
  simp [playerSave, playerClean, hp, hcount]

/-- Witness for the amended C5: both the 12th active profile (pid 11) and an
update of the existing playing profile pid 0 are rejected at the full roster. -/
theorem c5_amended_full_roster_rejects_any_playing_write_witness :
    playerSave dbFullRoster ⟨11, 11, 0, 0, 0, 0, true⟩ = none ∧
    playerSave dbFullRoster ⟨0, 0, 0, 5, 0, 0, true⟩ = none :=
  ⟨c5_amended_full_roster_rejects_any_playing_write dbFullRoster ⟨11, 11, 0, 0, 0, 0, true⟩
      (by decide) (by decide),
   c5_amended_full_roster_rejects_any_playing_write dbFullRoster ⟨0, 0, 0, 5, 0, 0, true⟩
      (by decide) (by decide)⟩

/-- Concrete store whose team 0 carries matches_played = 2, wins = 1, lost = 1,
draw = 2, with a persisted self-match of team 0 won by team 0. -/
def dbSelfMatchPrior : DB :=
  { userIds := [],
    userCategory := fun _ => "PLAYER",
    teamIds := [0],
    teams := fun _ => ⟨none, 2, 1, 1, 2, 0⟩,
    players := [],
    matchRows := fun _ => some ⟨0, 0, some 0⟩,
    nextMatchId := 1 }

/-- Concrete store with users 5 and 6 of category CAPTAIN, user 5 captaining
team 0. -/
def dbCaptains : DB :=
  { userIds := [5, 6],
    userCategory := fun u => if u = 5 ∨ u = 6 then "CAPTAIN" else "PLAYER",
    teamIds := [0],
    teams := fun _ => ⟨some 5, 0, 0, 0, 0, 0⟩,
    players := [],
    matchRows := fun _ => none,
    nextMatchId := 0 }

/-- Claim C7: (reassignment) a successful `Team.save` that changes the captain
away from the former captain c demotes c to PLAYER; (deletion) deleting a team
whose captain is c demotes c to PLAYER via the `post_delete` signal. -/
theorem c7_former_captain_reverted_to_player :
    (∀ (db : DB) (tid : Nat) (rec : TeamRec) (c : Nat),
        db.teamIds.contains tid = true →
        (db.teams tid).captain = some c →
        rec.captain ≠ some c →
        (teamSave db tid rec).isSome = true →
        (teamSave db tid rec).map (fun d => d.userCategory c) = some "PLAYER") ∧
    (∀ (db : DB) (tid : Nat) (c : Nat),
        (db.teams tid).captain = some c →
        (teamDelete db tid).userCategory c = "PLAYER") := by
  constructor
  · intro db tid rec c hmem hcap hne hsome
    have hmem' : tid ∈ db.teamIds := by simpa using hmem
    by_cases hclean : teamClean db tid rec
    · simp [teamSave, hclean, hmem', hcap, hne, updFun]
    · simp [teamSave, hclean] at hsome
  · intro db tid c hcap
    simp [teamDelete, hcap, updFun]

/-- Witness for C7: reassigning team 0's captain from user 5 to user 6 demotes
user 5; deleting team 0 demotes its captain user 5. -/
theorem c7_former_captain_reverted_to_player_witness :
    ((teamSave dbCaptains 0 ⟨some 6, 0, 0, 0, 0, 0⟩).map
        (fun d => d.userCategory 5) = some "PLAYER") ∧
    (teamDelete dbCaptains 0).userCategory 5 = "PLAYER" :=
  ⟨c7_former_captain_reverted_to_player.1 dbCaptains 0 ⟨some 6, 0, 0, 0, 0, 0⟩ 5
      (by decide) (by decide) (by decide) (by decide),
   c7_former_captain_reverted_to_player.2 dbCaptains 0 5 (by decide)⟩

@[simp] theorem demoteStep_teams (db : DB) (u : Nat) :
    (demoteStep db u).teams = db.teams := by
  unfold demoteStep; split <;> rfl

@[simp] theorem demoteStep_teamIds (db : DB) (u : Nat) :
    (demoteStep db u).teamIds = db.teamIds := by
  unfold demoteStep; split <;> rfl

theorem demoteStep_category_ne (db : DB) (u v : Nat) (h : v ≠ u) :
    (demoteStep db u).userCategory v = db.userCategory v := by
  unfold demoteStep; split <;> simp [updFun, h]

theorem foldl_demoteStep_teams (l : List Nat) (db : DB) :
    (l.foldl demoteStep db).teams = db.teams := by
  induction l generalizing db with
  | nil => rfl
  | cons a l ih => simp [List.foldl_cons, ih]

theorem foldl_demoteStep_teamIds (l : List Nat) (db : DB) :
    (l.foldl demoteStep db).teamIds = db.teamIds := by
  induction l generalizing db with
  | nil => rfl
  | cons a l ih => simp [List.foldl_cons, ih]

theorem foldl_demoteStep_not_mem (l : List Nat) (db : DB) (v : Nat) (h : v ∉ l) :
    (l.foldl demoteStep db).userCategory v = db.userCategory v := by
  induction l generalizing db with
  | nil => rfl
  | cons a l ih =>
      rw [List.foldl_cons, ih _ (fun hv => h (List.mem_cons_of_mem a hv)),
        demoteStep_category_ne db a v (fun hv => h (hv ▸ List.mem_cons_self a l))]

theorem foldl_demoteStep_player_stays (l : List Nat) (db : DB) (u : Nat)
    (h : db.userCategory u = "PLAYER") :
    (l.foldl demoteStep db).userCategory u = "PLAYER" := by
  induction l generalizing db with
  | nil => exact h
  | cons a l ih =>
      rw [List.foldl_cons]
      by_cases hau : u = a
      · subst hau
        have : (demoteStep db u).userCategory u = "PLAYER" := by
          unfold demoteStep; split <;> simp [updFun, h]
        exact ih _ this
      · exact ih _ (by rw [demoteStep_category_ne db a u hau, h])

/-- Running the `ensure_captain_has_team` loop demotes every listed user who is
a CAPTAIN captaining no team. -/
theorem foldl_demoteStep_demotes (l : List Nat) (db : DB) (u : Nat)
    (hu : u ∈ l) (hcat : db.userCategory u = "CAPTAIN")
    (hany : (db.teamIds.any (fun t => (db.teams t).captain == some u)) = false) :
    (l.foldl demoteStep db).userCategory u = "PLAYER" := by
  induction l generalizing db with
  | nil => cases hu
  | cons a l ih =>
      rw [List.foldl_cons]
      by_cases hau : u = a
      · subst hau
        have hstep : (demoteStep db u).userCategory u = "PLAYER" := by
          unfold demoteStep
          rw [if_pos (by simp [hcat, hany])]
          simp [updFun]
        exact foldl_demoteStep_player_stays l _ u hstep
      · have hul : u ∈ l := by
          rcases List.mem_cons.mp hu with h | h
          · exact absurd h hau
          · exact h
        refine ih _ hul ?_ ?_
        · rw [demoteStep_category_ne db a u hau, hcat]
        · simpa using hany

/-- After the `ensure_captain_has_team` loop, every listed user still holding
category CAPTAIN captains some team. -/
theorem foldl_demoteStep_spec (l : List Nat) (db : DB) (u : Nat)
    (hu : u ∈ l) (hcat : (l.foldl demoteStep db).userCategory u = "CAPTAIN") :
    ∃ t ∈ db.teamIds, (db.teams t).captain = some u := by
  induction l generalizing db with
  | nil => cases hu
  | cons a l ih =>
      rw [List.foldl_cons] at hcat
      by_cases hmem : u ∈ l
      · have := ih _ hmem hcat
        simpa using this
      · have hua : u = a := by
          rcases List.mem_cons.mp hu with h | h
          · exact h
          · exact absurd h hmem
        subst hua
        rw [foldl_demoteStep_not_mem l _ u hmem] at hcat
        unfold demoteStep at hcat
        split at hcat
        · simp [updFun] at hcat
        · rename_i hcond
          rw [hcat] at hcond
          simp at hcond
          obtain ⟨t, ht, hct⟩ := hcond
          exact ⟨t, ht, hct⟩

/-- Demotion behaviour of the signal run on the post-write state: a listed
CAPTAIN who is not the new captain of the saved team and captains no other team
is demoted. -/
theorem demote_post_write_demotes (db : DB) (tid : Nat) (rec : TeamRec)
    (ids : List Nat) (hids : ∀ t ∈ ids, t = tid ∨ t ∈ db.teamIds)
    (u : Nat) (hu : u ∈ db.userIds) (hcat : db.userCategory u = "CAPTAIN")
    (hrc : rec.captain ≠ some u)
    (hother : ∀ t ∈ db.teamIds, t ≠ tid → (db.teams t).captain ≠ some u) :
    (demoteTeamlessCaptains
        { db with teams := updFun db.teams tid rec, teamIds := ids }).userCategory u
      = "PLAYER" := by
  unfold demoteTeamlessCaptains
  refine foldl_demoteStep_demotes _ _ _ hu ?_ ?_
  · exact hcat
  rw [List.any_eq_false]
  intro t ht
  simp only [updFun_apply]
  rcases hids t ht with rfl | htmem
  · simp [hrc]
  · by_cases htid : t = tid
    · subst htid; simp [hrc]
    · simp [htid]
      exact fun hc => hother t htmem htid (by simp [hc])

/-- Invariant behaviour of the signal run on the post-write state: a listed
user still holding CAPTAIN afterwards captains one of the teams of the
post-write state. -/
theorem demote_post_write_spec (db : DB) (tid : Nat) (rec : TeamRec)
    (ids : List Nat) (u : Nat) (hu : u ∈ db.userIds)
    (hcat : (demoteTeamlessCaptains
        { db with teams := updFun db.teams tid rec, teamIds := ids }).userCategory u
      = "CAPTAIN") :
    ∃ t ∈ ids, (updFun db.teams tid rec t).captain = some u := by
  unfold demoteTeamlessCaptains at hcat
  dsimp only at hcat
  have := foldl_demoteStep_spec db.userIds
    { db with teams := updFun db.teams tid rec, teamIds := ids } u hu hcat
  simpa using this

/-- Both halves of C8 for a state of the shape produced by `teamSave` after the
row write: the signal output, optionally patched by the old-captain demotion. -/
theorem c8_core (db : DB) (tid : Nat) (rec : TeamRec) (ids : List Nat)
    (hids : ∀ t ∈ ids, t = tid ∨ t ∈ db.teamIds) (db' : DB)
    (hdb' : db' = demoteTeamlessCaptains
        { db with teams := updFun db.teams tid rec, teamIds := ids } ∨
      ∃ c, db' = { demoteTeamlessCaptains
          { db with teams := updFun db.teams tid rec, teamIds := ids } with
        userCategory := updFun (demoteTeamlessCaptains
          { db with teams := updFun db.teams tid rec, teamIds := ids }).userCategory
          c "PLAYER" }) :
    (∀ u ∈ db.userIds, db.userCategory u = "CAPTAIN" → rec.captain ≠ some u →
        (∀ t ∈ db.teamIds, t ≠ tid → (db.teams t).captain ≠ some u) →
        db'.userCategory u = "PLAYER") ∧
    (∀ u ∈ db.userIds, db'.userCategory u = "CAPTAIN" →
        ∃ t ∈ db'.teamIds, (db'.teams t).captain = some u) := by
  have hteamIds : (demoteTeamlessCaptains
      { db with teams := updFun db.teams tid rec, teamIds := ids }).teamIds = ids := by
    unfold demoteTeamlessCaptains
    exact foldl_demoteStep_teamIds _ _
  have hteams : (demoteTeamlessCaptains
      { db with teams := updFun db.teams tid rec, teamIds := ids }).teams
      = updFun db.teams tid rec := by
    unfold demoteTeamlessCaptains
    exact foldl_demoteStep_teams _ _
  constructor
  · intro u hu hcat hrc hother
    have hdem := demote_post_write_demotes db tid rec ids hids u hu hcat hrc hother
    rcases hdb' with rfl | ⟨c, rfl⟩
    · exact hdem
    · by_cases huc : u = c
      · subst huc; simp [updFun]
      · simpa [updFun, huc] using hdem
  · intro u hu hcat
    have hcat2 : (demoteTeamlessCaptains
        { db with teams := updFun db.teams tid rec, teamIds := ids }).userCategory u
        = "CAPTAIN" := by
      rcases hdb' with rfl | ⟨c, rfl⟩
      · exact hcat
      · by_cases huc : u = c
        · subst huc; simp [updFun] at hcat
        · simpa [updFun, huc] using hcat
    have := demote_post_write_spec db tid rec ids u hu hcat2
    rcases hdb' with rfl | ⟨c, rfl⟩
    · rw [hteamIds, hteams]
      exact this
    · simpa [hteamIds, hteams] using this

/-- Claim C8: any successful `Team.save` additionally demotes every user whose
category is CAPTAIN but who captains no team afterwards — including users
unrelated to the team being saved — so after the save every remaining CAPTAIN
captains some team. -/
theorem c8_team_save_global_captain_invariant (db : DB) (tid : Nat) (rec : TeamRec)
    (db' : DB) (h : teamSave db tid rec = some db') :
    (∀ u ∈ db.userIds, db.userCategory u = "CAPTAIN" → rec.captain ≠ some u →
        (∀ t ∈ db.teamIds, t ≠ tid → (db.teams t).captain ≠ some u) →
        db'.userCategory u = "PLAYER") ∧
    (∀ u ∈ db.userIds, db'.userCategory u = "CAPTAIN" →
        ∃ t ∈ db'.teamIds, (db'.teams t).captain = some u) := by
  by_cases hclean : teamClean db tid rec
  case neg => simp [teamSave, hclean] at h
  case pos =>
  by_cases hmem : db.teamIds.contains tid
  case pos =>
    have hmem' : tid ∈ db.teamIds := by simpa using hmem
    have hids : ∀ t ∈ db.teamIds, t = tid ∨ t ∈ db.teamIds := fun t ht => Or.inr ht
    cases hcap : (db.teams tid).captain with
    | none =>
        simp [teamSave, hclean, hmem', hcap] at h
        exact c8_core db tid rec db.teamIds hids db' (Or.inl h.symm)
    | some c =>
        by_cases hrc : rec.captain = some c
        · simp [teamSave, hclean, hmem', hcap, hrc] at h
          exact c8_core db tid rec db.teamIds hids db' (Or.inl h.symm)
        · simp [teamSave, hclean, hmem', hcap, hrc] at h
          exact c8_core db tid rec db.teamIds hids db' (Or.inr ⟨c, h.symm⟩)
  case neg =>
    have hmem' : tid ∉ db.teamIds := by simpa using hmem
    have hids : ∀ t ∈ tid :: db.teamIds, t = tid ∨ t ∈ db.teamIds := by
      intro t ht
      rcases List.mem_cons.mp ht with rfl | ht'
      · exact Or.inl rfl
      · exact Or.inr ht'
    simp [teamSave, hclean, hmem'] at h
    exact c8_core db tid rec (tid :: db.teamIds) hids db' (Or.inl h.symm)

/-- The state after re-saving team 0 of `dbCaptains` with captain 5 unchanged:
the save succeeds, so the result can be extracted. -/
def c8AfterSave : DB :=
  Option.get (teamSave dbCaptains 0 ⟨some 5, 0, 0, 0, 0, 0⟩) (by decide)

/-- Witness for C8: re-saving team 0 of `dbCaptains` (captain 5 kept) demotes
the unrelated teamless captain, user 6, and afterwards every remaining CAPTAIN
captains a team. -/
theorem c8_team_save_global_captain_invariant_witness :
    (∀ u ∈ dbCaptains.userIds, dbCaptains.userCategory u = "CAPTAIN" →
        (⟨some 5, 0, 0, 0, 0, 0⟩ : TeamRec).captain ≠ some u →
        (∀ t ∈ dbCaptains.teamIds, t ≠ 0 → (dbCaptains.teams t).captain ≠ some u) →
        c8AfterSave.userCategory u = "PLAYER") ∧
    (∀ u ∈ dbCaptains.userIds, c8AfterSave.userCategory u = "CAPTAIN" →
        ∃ t ∈ c8AfterSave.teamIds, (c8AfterSave.teams t).captain = some u) :=
  c8_team_save_global_captain_invariant dbCaptains 0 ⟨some 5, 0, 0, 0, 0, 0⟩
    c8AfterSave (Option.some_get _).symm

/-- Concrete store where team 0 has a recorded win over team 1 (team 0:
matches_played 1, wins 1, points 2; team 1: matches_played 1, lost 1), with
that match persisted as row 0. -/
def dbAfterWin : DB :=
  { userIds := [],
    userCategory := fun _ => "PLAYER",
    teamIds := [0, 1],
    teams := fun t => if t = 0 then ⟨none, 1, 1, 0, 0, 2⟩ else ⟨none, 1, 0, 1, 0, 0⟩,
    players := [],
    matchRows := fun _ => some ⟨0, 1, some 0⟩,
    nextMatchId := 1 }

/-- Claim C1 fails on the code: creating a match with winner = team 0 and then
editing it to winner = null through the deployed flows leaves team 0's
matches_played at 2, not the claimed 1. The revert decrement of the winning
team's matches_played (models.py line 130) lives on the `old_match.team1`
instance, which the winner branch (lines 139-146) never saves — it saves only
`old_winner`, a distinct instance carrying the stale value, and the loser —
so the decrement is lost and the apply block adds 1 on top. The other claimed
values (wins 0, draws 1 and 1, team 1's matches_played 1) do come out. -/
theorem c1_round_trip_leaves_matches_played_two :
    ((createMatchApi dbTwoTeams ⟨0, 1, some 0⟩).bind
        (fun r => updateMatchApi r.1 r.2 none)).map
      (fun d => (d.teams 0, d.teams 1, d.players)) =
    some (⟨none, 2, 0, 0, 1, 1⟩, ⟨none, 1, 0, 0, 1, 1⟩, [⟨0, 0, 0, 1, 0, 0, true⟩]) := by
  decide

/-- Claim C2 fails on the code: through the deployed create flow the winner
and team1 are distinct instances, so the trailing `self.team1.save()`
(models.py line 188) rewrites team 0's row from the stale local copy — the
final state has wins = 0 and points = 0, not the claimed 1 and 2 (B.lost = 1
and both matches_played = 1 and P's increment do come out). Moreover, for a
team that already has 11 active players, the in-loop `player.save()` runs
`full_clean`, which raises RosterFull (PlayerProfile.clean counts without
excluding the player), so the whole save rolls back and no "+1 to every
active player" happens at all. -/
theorem c2_create_flow_loses_win_and_rejects_full_roster :
    (createMatchApi dbTwoTeams ⟨0, 1, some 0⟩).map
      (fun r => (r.1.teams 0, r.1.teams 1, r.1.players)) =
      some (⟨none, 1, 0, 0, 0, 0⟩, ⟨none, 1, 0, 1, 0, 0⟩, [⟨0, 0, 0, 1, 0, 0, true⟩]) ∧
    (createMatchApi dbFullRoster ⟨0, 0, some 0⟩).isSome = false := by
  decide

/-- Claim C6 fails on the code: the revert step does not set each reverted
counter to max(0, previous - 1). For the prior self-match outcome (team1 =
team2 = winner = 0) on a row (matches_played 2, wins 1, lost 1, draw 2), the
stale final saves of `old_winner` and the loser leave the row at
matches_played 1, wins 1 (the wins revert is clobbered), lost 0, points 4.
And even for distinct teams (prior team1 = 0, team2 = 1, winner = 0), the
winning team's matches_played is not reverted at all — the decrement is held
by the never-saved `old_match.team1` instance — so team 0 keeps
matches_played 1 where the claim demands max(0, 1 - 1) = 0, while team 1's
counters do revert. -/
theorem c6_revert_drops_winner_side_decrements :
    ((revertStatsInst dbSelfMatchPrior ⟨0, 0, some 0⟩).map (fun d => d.teams 0) =
      some ⟨none, 1, 1, 0, 2, 4⟩) ∧
    ((revertStatsInst dbAfterWin ⟨0, 1, some 0⟩).map
        (fun d => ((d.teams 0).matches_played, (d.teams 0).wins,
                   (d.teams 1).matches_played, (d.teams 1).lost)) =
      some (1, 0, 0, 0)) := by
  decide

end CricketApi
